import Mathlib

/-!
# Session Clock Reconciler — verification of the Focus Pomodoro timer

Shallow embedding of the timer-reconciliation logic of
`src/components/PomodoroTimer.tsx`:

* `getCurrentDurationForState` — the phase-to-duration lookup.
* `simulateLoop` — the `while (remainingTime > 0)` catch-up loop inside
  `simulateCompletedSessions`, written with explicit fuel (the source loop
  has no a-priori bound; `none` means the fuel ran out before the loop
  exited).  Each completed phase is appended to `savedSessions`, mirroring
  the `saveSession(currentSessionType, sessionDuration)` call the source
  makes once per completed phase.
* `simulateCompletedSessions` — the entry point of the catch-up simulation.
* `reconcile` — the startup restore logic of the component's mount effect:
  given the parsed snapshot and `timeSinceLastUpdate` (the elapsed wall
  seconds), it either restores the snapshot verbatim, resumes the running
  phase with the elapsed time subtracted, or runs the catch-up simulation.
* `nextSession` — the live phase-completion handler (phase transition,
  session counting, auto-start flags).

Time quantities are `Int` (the source uses JavaScript numbers and the spec
allows negative elapsed time from clock skew); session counts are `Nat`.
-/

namespace Focus

/-- The `SessionType` union of the source: `'work' | 'shortBreak' | 'longBreak'`. -/
inductive SessionType where
  | work
  | shortBreak
  | longBreak
  deriving DecidableEq, Repr

/-- The `PomodoroSettings` interface (durations in seconds). -/
structure PomodoroSettings where
  workDuration : Int
  shortBreakDuration : Int
  longBreakDuration : Int
  sessionsUntilLongBreak : Nat
  soundEnabled : Bool
  autoStartBreaks : Bool
  autoStartWork : Bool
  deriving DecidableEq, Repr

/-- The persisted `TimerState` snapshot (the `lastUpdateTime` /
`sessionStartTime` timestamps are folded into the derived
`timeSinceLastUpdate` argument of `reconcile`). -/
structure TimerState where
  currentState : SessionType
  timeLeft : Int
  isRunning : Bool
  completedSessions : Nat
  deriving DecidableEq, Repr

/-- `getCurrentDurationForState` of the source. -/
def getCurrentDurationForState (state : SessionType) (currentSettings : PomodoroSettings) : Int :=
  match state with
  | .work => currentSettings.workDuration
  | .shortBreak => currentSettings.shortBreakDuration
  | .longBreak => currentSettings.longBreakDuration

/-- The state the reconciliation ends in: the four timer fields that the
source writes with `setCurrentState` / `setTimeLeft` / `setIsRunning` /
`setCompletedSessions`, plus `completedWhileAway` (the toast counter) and
`savedSessions` (the arguments of the `saveSession` calls, in order). -/
structure ReconcileResult where
  currentState : SessionType
  timeLeft : Int
  isRunning : Bool
  completedSessions : Nat
  completedWhileAway : Nat
  savedSessions : List (SessionType × Int)
  deriving DecidableEq, Repr

/-- The `while (remainingTime > 0)` loop of `simulateCompletedSessions`,
with explicit fuel.  `none` means the fuel was exhausted before the loop
exited (the source loop would still be running). -/
def simulateLoop (currentSettings : PomodoroSettings) (fuel : Nat) (remainingTime : Int)
    (currentSessionType : SessionType) (sessions completedWhileAway : Nat)
    (saved : List (SessionType × Int)) : Option ReconcileResult :=
  match fuel with
  | 0 => none
  | fuel + 1 =>
    if 0 < remainingTime then
      let sessionDuration := getCurrentDurationForState currentSessionType currentSettings
      if sessionDuration ≤ remainingTime then
        let saved' := saved ++ [(currentSessionType, sessionDuration)]
        if currentSessionType = .work then
          let sessions' := sessions + 1
          let next : SessionType :=
            if sessions' % currentSettings.sessionsUntilLongBreak = 0 then .longBreak
            else .shortBreak
          simulateLoop currentSettings fuel (remainingTime - sessionDuration) next sessions'
            (completedWhileAway + 1) saved'
        else
          simulateLoop currentSettings fuel (remainingTime - sessionDuration) .work sessions
            (completedWhileAway + 1) saved'
      else
        some { currentState := currentSessionType
               timeLeft := sessionDuration - remainingTime
               isRunning := true
               completedSessions := sessions
               completedWhileAway := completedWhileAway
               savedSessions := saved }
    else
      some { currentState := currentSessionType
             timeLeft := getCurrentDurationForState currentSessionType currentSettings
             isRunning := false
             completedSessions := sessions
             completedWhileAway := completedWhileAway
             savedSessions := saved }

/-- `simulateCompletedSessions` of the source. -/
def simulateCompletedSessions (lastState : TimerState) (totalElapsedTime : Int)
    (currentSettings : PomodoroSettings) (fuel : Nat) : Option ReconcileResult :=
  simulateLoop currentSettings fuel totalElapsedTime lastState.currentState
    lastState.completedSessions 0 []

/-- The snapshot-restore logic of the mount effect: `timeSinceLastUpdate`
is `floor((now - parsedState.lastUpdateTime) / 1000)`.  A running snapshot
with positive elapsed time is either resumed (`newTimeLeft > 0`) or caught
up via `simulateCompletedSessions`; otherwise the snapshot is restored
verbatim. -/
def reconcile (parsedState : TimerState) (timeSinceLastUpdate : Int)
    (loadedSettings : PomodoroSettings) (fuel : Nat) : Option ReconcileResult :=
  if parsedState.isRunning = true ∧ 0 < timeSinceLastUpdate then
    let newTimeLeft := max 0 (parsedState.timeLeft - timeSinceLastUpdate)
    if 0 < newTimeLeft then
      some { currentState := parsedState.currentState
             timeLeft := newTimeLeft
             isRunning := true
             completedSessions := parsedState.completedSessions
             completedWhileAway := 0
             savedSessions := [] }
    else
      let sessionDuration := getCurrentDurationForState parsedState.currentState loadedSettings
      simulateCompletedSessions parsedState
        (timeSinceLastUpdate + (sessionDuration - parsedState.timeLeft)) loadedSettings fuel
  else
    some { currentState := parsedState.currentState
           timeLeft := parsedState.timeLeft
           isRunning := parsedState.isRunning
           completedSessions := parsedState.completedSessions
           completedWhileAway := 0
           savedSessions := [] }

/-- The result of the live `nextSession` handler: the timer fields it
writes plus the `saveSession(currentState, sessionDuration - timeLeft)`
record. -/
structure NextSessionResult where
  currentState : SessionType
  timeLeft : Int
  isRunning : Bool
  completedSessions : Nat
  savedSession : SessionType × Int
  deriving DecidableEq, Repr

/-- `nextSession` of the source.  `setIsRunning(true)` happens only under
the matching auto-start flag, and the trailing
`if (!autoStartBreaks && !autoStartWork) setIsRunning(false)` overrides
both branches when neither auto-start is enabled. -/
def nextSession (st : TimerState) (settings : PomodoroSettings) : NextSessionResult :=
  let sessionDuration := getCurrentDurationForState st.currentState settings
  let saved : SessionType × Int := (st.currentState, sessionDuration - st.timeLeft)
  let r : NextSessionResult :=
    if st.currentState = .work then
      let newCompletedSessions := st.completedSessions + 1
      if newCompletedSessions % settings.sessionsUntilLongBreak = 0 then
        { currentState := .longBreak
          timeLeft := settings.longBreakDuration
          isRunning := if settings.autoStartBreaks then true else st.isRunning
          completedSessions := newCompletedSessions
          savedSession := saved }
      else
        { currentState := .shortBreak
          timeLeft := settings.shortBreakDuration
          isRunning := if settings.autoStartBreaks then true else st.isRunning
          completedSessions := newCompletedSessions
          savedSession := saved }
    else
      { currentState := .work
        timeLeft := settings.workDuration
        isRunning := if settings.autoStartWork then true else st.isRunning
        completedSessions := st.completedSessions
        savedSession := saved }
  if settings.autoStartBreaks = false ∧ settings.autoStartWork = false then
    { r with isRunning := false }
  else r

/-- The configuration of the spec's worked scenarios:
work 1500 s, short break 300 s, long break 900 s, long break every 4 work
sessions. -/
def cfgA : PomodoroSettings :=
  { workDuration := 1500
    shortBreakDuration := 300
    longBreakDuration := 900
    sessionsUntilLongBreak := 4
    soundEnabled := true
    autoStartBreaks := false
    autoStartWork := false }

/-- A degenerate configuration in which every phase duration is zero. -/
def zeroCfg : PomodoroSettings :=
  { workDuration := 0
    shortBreakDuration := 0
    longBreakDuration := 0
    sessionsUntilLongBreak := 4
    soundEnabled := true
    autoStartBreaks := false
    autoStartWork := false }

/-! ## Loop invariants of `simulateLoop` -/

/-- Every phase duration is nonnegative when the three configured durations are. -/
theorem dur_nonneg (cs : PomodoroSettings) (hw : 0 ≤ cs.workDuration)
    (hs : 0 ≤ cs.shortBreakDuration) (hl : 0 ≤ cs.longBreakDuration) (p : SessionType) :
    0 ≤ getCurrentDurationForState p cs := by
  cases p <;> simpa [getCurrentDurationForState]

/-- The loop only ever appends to the list of saved (completed) sessions. -/
theorem simulateLoop_saved_extend (cs : PomodoroSettings) :
    ∀ (fuel : Nat) (rem : Int) (p : SessionType) (ss aw : Nat)
      (sv : List (SessionType × Int)) (res : ReconcileResult),
      simulateLoop cs fuel rem p ss aw sv = some res →
      ∃ t, res.savedSessions = sv ++ t := by
  intro fuel
  induction fuel with
  | zero => intro rem p ss aw sv res h; simp [simulateLoop] at h
  | succ n ih =>
    intro rem p ss aw sv res h
    simp only [simulateLoop] at h
    split at h
    · split at h
      · split at h
        · obtain ⟨t, ht⟩ := ih _ _ _ _ _ _ h
          exact ⟨(p, getCurrentDurationForState p cs) :: t, by simpa using ht⟩
        · obtain ⟨t, ht⟩ := ih _ _ _ _ _ _ h
          exact ⟨(p, getCurrentDurationForState p cs) :: t, by simpa using ht⟩
      · cases h; exact ⟨[], by simp⟩
    · cases h; exact ⟨[], by simp⟩

/-- Conservation invariant of the loop: the total of the saved durations
plus the part of the final phase already consumed equals what was saved on
entry plus the remaining time on entry. -/
theorem simulateLoop_conservation (cs : PomodoroSettings) :
    ∀ (fuel : Nat) (rem : Int) (p : SessionType) (ss aw : Nat)
      (sv : List (SessionType × Int)) (res : ReconcileResult),
      0 ≤ rem →
      simulateLoop cs fuel rem p ss aw sv = some res →
      (res.savedSessions.map Prod.snd).sum
          + (getCurrentDurationForState res.currentState cs - res.timeLeft)
        = (sv.map Prod.snd).sum + rem := by
  intro fuel
  induction fuel with
  | zero => intro rem p ss aw sv res _ h; simp [simulateLoop] at h
  | succ n ih =>
    intro rem p ss aw sv res hrem h
    simp only [simulateLoop] at h
    split at h
    · rename_i hpos
      split at h
      · rename_i hd
        split at h
        · have := ih _ _ _ _ _ _ (by omega) h
          simp only [List.map_append, List.sum_append, List.map_cons, List.map_nil,
            List.sum_cons, List.sum_nil] at this ⊢
          omega
        · have := ih _ _ _ _ _ _ (by omega) h
          simp only [List.map_append, List.sum_append, List.map_cons, List.map_nil,
            List.sum_cons, List.sum_nil] at this ⊢
          omega
      · cases h; simp
    · cases h
      rename_i hpos
      simp
      omega

/-- The away counter grows exactly with the saved-sessions list: one
increment per completed phase, regardless of the phase's type. -/
theorem simulateLoop_away (cs : PomodoroSettings) :
    ∀ (fuel : Nat) (rem : Int) (p : SessionType) (ss aw : Nat)
      (sv : List (SessionType × Int)) (res : ReconcileResult),
      simulateLoop cs fuel rem p ss aw sv = some res →
      res.completedWhileAway + sv.length = aw + res.savedSessions.length := by
  intro fuel
  induction fuel with
  | zero => intro rem p ss aw sv res h; simp [simulateLoop] at h
  | succ n ih =>
    intro rem p ss aw sv res h
    simp only [simulateLoop] at h
    split at h
    · split at h
      · split at h
        · have := ih _ _ _ _ _ _ h
          simp only [List.length_append, List.length_cons, List.length_nil] at this ⊢
          omega
        · have := ih _ _ _ _ _ _ h
          simp only [List.length_append, List.length_cons, List.length_nil] at this ⊢
          omega
      · cases h; simp
    · cases h; simp

/-- Bounds invariant: whatever state the loop exits in, the remaining time
is between 0 and the full duration of the final phase, and it is strictly
positive whenever the timer is left running. -/
theorem simulateLoop_bounds (cs : PomodoroSettings) (hw : 0 ≤ cs.workDuration)
    (hs : 0 ≤ cs.shortBreakDuration) (hl : 0 ≤ cs.longBreakDuration) :
    ∀ (fuel : Nat) (rem : Int) (p : SessionType) (ss aw : Nat)
      (sv : List (SessionType × Int)) (res : ReconcileResult),
      simulateLoop cs fuel rem p ss aw sv = some res →
      0 ≤ res.timeLeft ∧ res.timeLeft ≤ getCurrentDurationForState res.currentState cs ∧
        (res.isRunning = true → 0 < res.timeLeft) := by
  intro fuel
  induction fuel with
  | zero => intro rem p ss aw sv res h; simp [simulateLoop] at h
  | succ n ih =>
    intro rem p ss aw sv res h
    simp only [simulateLoop] at h
    split at h
    · rename_i hpos
      split at h
      · split at h
        · exact ih _ _ _ _ _ _ h
        · exact ih _ _ _ _ _ _ h
      · rename_i hd
        cases h
        refine ⟨?_, ?_, fun _ => ?_⟩ <;> (dsimp only; omega)
    · cases h
      exact ⟨dur_nonneg cs hw hs hl p, le_refl _, by simp⟩

/-- The loop leaves the timer stopped exactly when the remaining time of
the final phase is that phase's full duration (the exact-boundary exit). -/
theorem simulateLoop_boundaryFlag (cs : PomodoroSettings) :
    ∀ (fuel : Nat) (rem : Int) (p : SessionType) (ss aw : Nat)
      (sv : List (SessionType × Int)) (res : ReconcileResult),
      simulateLoop cs fuel rem p ss aw sv = some res →
      (res.isRunning = false ↔ res.timeLeft = getCurrentDurationForState res.currentState cs) := by
  intro fuel
  induction fuel with
  | zero => intro rem p ss aw sv res h; simp [simulateLoop] at h
  | succ n ih =>
    intro rem p ss aw sv res h
    simp only [simulateLoop] at h
    split at h
    · rename_i hpos
      split at h
      · split at h
        · exact ih _ _ _ _ _ _ h
        · exact ih _ _ _ _ _ _ h
      · cases h
        dsimp only
        constructor
        · intro hfalse; cases hfalse
        · intro heq; omega
    · cases h
      simp

/-- Every phase duration is positive when the three configured durations are. -/
theorem dur_pos (cs : PomodoroSettings) (hw : 1 ≤ cs.workDuration)
    (hs : 1 ≤ cs.shortBreakDuration) (hl : 1 ≤ cs.longBreakDuration) (p : SessionType) :
    1 ≤ getCurrentDurationForState p cs := by
  cases p <;> simpa [getCurrentDurationForState]

/-- When every phase duration is zero, the catch-up loop never exits: any
amount of fuel is exhausted with the remaining time still positive. -/
theorem simulateLoop_zeroCfg_none :
    ∀ (fuel : Nat) (rem : Int) (p : SessionType) (ss aw : Nat) (sv : List (SessionType × Int)),
      0 < rem → simulateLoop zeroCfg fuel rem p ss aw sv = none := by
  intro fuel
  induction fuel with
  | zero => intro rem p ss aw sv _; simp [simulateLoop]
  | succ n ih =>
    intro rem p ss aw sv hrem
    have hd : getCurrentDurationForState p zeroCfg = 0 := by
      cases p <;> rfl
    simp only [simulateLoop, hd]
    rw [if_pos hrem, if_pos (le_of_lt hrem)]
    split
    · simpa using ih rem _ _ _ _ hrem
    · simpa using ih rem _ _ _ _ hrem

/-! ## Branches of `reconcile` -/

/-- A snapshot that was not running is restored verbatim. -/
theorem reconcile_not_running (cfg : PomodoroSettings) (st : TimerState) (elapsed : Int)
    (fuel : Nat) (h : st.isRunning = false) :
    reconcile st elapsed cfg fuel =
      some { currentState := st.currentState, timeLeft := st.timeLeft, isRunning := false,
             completedSessions := st.completedSessions, completedWhileAway := 0,
             savedSessions := [] } := by
  simp [reconcile, h]

/-- A snapshot with nonpositive elapsed time is restored verbatim. -/
theorem reconcile_nonpos (cfg : PomodoroSettings) (st : TimerState) (elapsed : Int)
    (fuel : Nat) (h : ¬ 0 < elapsed) :
    reconcile st elapsed cfg fuel =
      some { currentState := st.currentState, timeLeft := st.timeLeft, isRunning := st.isRunning,
             completedSessions := st.completedSessions, completedWhileAway := 0,
             savedSessions := [] } := by
  simp [reconcile, h]

/-- A running snapshot whose phase has not yet finished resumes with the
elapsed time subtracted. -/
theorem reconcile_resume (cfg : PomodoroSettings) (st : TimerState) (elapsed : Int)
    (fuel : Nat) (hrun : st.isRunning = true) (h0 : 0 < elapsed)
    (hlt : elapsed < st.timeLeft) :
    reconcile st elapsed cfg fuel =
      some { currentState := st.currentState, timeLeft := st.timeLeft - elapsed,
             isRunning := true, completedSessions := st.completedSessions,
             completedWhileAway := 0, savedSessions := [] } := by
  have hmax : max 0 (st.timeLeft - elapsed) = st.timeLeft - elapsed := by
    rw [max_eq_right]; omega
  simp [reconcile, hrun, h0, hmax, show (0 : Int) < st.timeLeft - elapsed by omega]

/-- A running snapshot whose phase has finished hands over to the catch-up
loop, with the full elapsed time since the phase began. -/
theorem reconcile_simulate (cfg : PomodoroSettings) (st : TimerState) (elapsed : Int)
    (fuel : Nat) (hrun : st.isRunning = true) (h0 : 0 < elapsed)
    (hge : st.timeLeft ≤ elapsed) :
    reconcile st elapsed cfg fuel =
      simulateLoop cfg fuel
        (elapsed + (getCurrentDurationForState st.currentState cfg - st.timeLeft))
        st.currentState st.completedSessions 0 [] := by
  have hmax : max 0 (st.timeLeft - elapsed) = (0 : Int) := by
    rw [max_eq_left]; omega
  simp [reconcile, simulateCompletedSessions, hrun, h0, hmax]

/-- The first phase the catch-up loop completes is the snapshot's own phase,
at its full duration. -/
theorem simulateLoop_first_completed (cs : PomodoroSettings) (fuel : Nat) (rem : Int)
    (p : SessionType) (ss aw : Nat) (res : ReconcileResult) (h0 : 0 < rem)
    (hd : getCurrentDurationForState p cs ≤ rem)
    (hres : simulateLoop cs fuel rem p ss aw [] = some res) :
    ∃ t, res.savedSessions = (p, getCurrentDurationForState p cs) :: t := by
  cases fuel with
  | zero => simp [simulateLoop] at hres
  | succ n =>
    simp only [simulateLoop] at hres
    rw [if_pos h0, if_pos hd] at hres
    split at hres
    · obtain ⟨t, ht⟩ := simulateLoop_saved_extend cs n _ _ _ _ _ _ hres
      exact ⟨t, by simpa using ht⟩
    · obtain ⟨t, ht⟩ := simulateLoop_saved_extend cs n _ _ _ _ _ _ hres
      exact ⟨t, by simpa using ht⟩

/-! ## The claims -/

/-- Claim C2 (the code contradicts the spec's termination requirement):
with every phase duration configured to zero, the catch-up loop of
`simulateCompletedSessions` never terminates — for every fuel bound the
loop is still running when the fuel runs out.  Failing input: snapshot
`{phase = work, secondsRemaining = 0, isRunning = true,
completedWorkSessions = 0}` with elapsed = 1 under `zeroCfg`. -/
theorem c2_zero_durations_diverge :
    ∀ fuel : Nat,
      reconcile { currentState := SessionType.work, timeLeft := 0, isRunning := true,
                  completedSessions := 0 } 1 zeroCfg fuel = none := by
  intro fuel
  rw [reconcile_simulate zeroCfg _ 1 fuel rfl (by decide) (by decide)]
  exact simulateLoop_zeroCfg_none fuel _ _ _ _ _ (by decide)

/-- Claim C5 (confirmed): a snapshot with `isRunning = false` is restored
verbatim — same phase, remaining seconds and session count, still paused,
with zero sessions completed while away — for every configuration and
every elapsed value. -/
theorem c5_paused_unchanged (cfg : PomodoroSettings) (st : TimerState) (elapsed : Int)
    (fuel : Nat) (h : st.isRunning = false) :
    reconcile st elapsed cfg fuel =
      some { currentState := st.currentState, timeLeft := st.timeLeft, isRunning := false,
             completedSessions := st.completedSessions, completedWhileAway := 0,
             savedSessions := [] } :=
  reconcile_not_running cfg st elapsed fuel h

/-- Witness for C5 at a concrete paused snapshot and a huge elapsed time. -/
theorem c5_paused_unchanged_witness :
    reconcile { currentState := SessionType.shortBreak, timeLeft := 123, isRunning := false,
                completedSessions := 2 } 99999 cfgA 5 =
      some { currentState := SessionType.shortBreak, timeLeft := 123, isRunning := false,
             completedSessions := 2, completedWhileAway := 0, savedSessions := [] } :=
  c5_paused_unchanged cfgA
    { currentState := SessionType.shortBreak, timeLeft := 123, isRunning := false,
      completedSessions := 2 } 99999 5 rfl

/-- Claim C6 (confirmed): a running snapshot with `0 < elapsed <
secondsRemaining` keeps its phase and session count, subtracts the elapsed
time from the remaining seconds, stays running, and reports zero sessions
completed while away. -/
theorem c6_partial_countdown (cfg : PomodoroSettings) (st : TimerState) (elapsed : Int)
    (fuel : Nat) (hrun : st.isRunning = true) (h0 : 0 < elapsed)
    (hlt : elapsed < st.timeLeft) :
    reconcile st elapsed cfg fuel =
      some { currentState := st.currentState, timeLeft := st.timeLeft - elapsed,
             isRunning := true, completedSessions := st.completedSessions,
             completedWhileAway := 0, savedSessions := [] } :=
  reconcile_resume cfg st elapsed fuel hrun h0 hlt

/-- Witness for C6: 30 seconds elapse out of 100 remaining. -/
theorem c6_partial_countdown_witness :
    reconcile { currentState := SessionType.work, timeLeft := 100, isRunning := true,
                completedSessions := 1 } 30 cfgA 3 =
      some { currentState := SessionType.work, timeLeft := 70, isRunning := true,
             completedSessions := 1, completedWhileAway := 0, savedSessions := [] } := by
  rw [c6_partial_countdown cfgA
    { currentState := SessionType.work, timeLeft := 100, isRunning := true,
      completedSessions := 1 } 30 3 rfl (by decide) (by decide)]
  decide

/-- Claim C7 (confirmed): for a running snapshot with `elapsed ≤ 0`
(including negative values from clock skew) the result is the snapshot
unchanged, and it coincides with the result of reconciling at elapsed = 0 —
the nonpositive elapsed time is never propagated into the state. -/
theorem c7_clock_skew (cfg : PomodoroSettings) (st : TimerState) (elapsed : Int)
    (fuel : Nat) (hrun : st.isRunning = true) (hle : elapsed ≤ 0) :
    reconcile st elapsed cfg fuel =
      some { currentState := st.currentState, timeLeft := st.timeLeft, isRunning := true,
             completedSessions := st.completedSessions, completedWhileAway := 0,
             savedSessions := [] }
    ∧ reconcile st elapsed cfg fuel = reconcile st 0 cfg fuel := by
  have h1 := reconcile_nonpos cfg st elapsed fuel (by omega)
  have h2 := reconcile_nonpos cfg st 0 fuel (by omega)
  rw [hrun] at h1 h2
  exact ⟨h1, by rw [h1, h2]⟩

/-- Witness for C7 at a skewed elapsed value of -7 seconds. -/
theorem c7_clock_skew_witness :
    (reconcile { currentState := SessionType.longBreak, timeLeft := 42, isRunning := true,
                 completedSessions := 6 } (-7) cfgA 4 =
      some { currentState := SessionType.longBreak, timeLeft := 42, isRunning := true,
             completedSessions := 6, completedWhileAway := 0, savedSessions := [] })
    ∧ reconcile { currentState := SessionType.longBreak, timeLeft := 42, isRunning := true,
                  completedSessions := 6 } (-7) cfgA 4 =
        reconcile { currentState := SessionType.longBreak, timeLeft := 42, isRunning := true,
                    completedSessions := 6 } 0 cfgA 4 :=
  c7_clock_skew cfgA
    { currentState := SessionType.longBreak, timeLeft := 42, isRunning := true,
      completedSessions := 6 } (-7) 4 rfl (by decide)

/-- Counterexample to C1 as stated: a running work snapshot with 5 s left
and elapsed = 5 lands exactly on the phase boundary; the result is the
start of the long break at its full duration (900 s), but with
`isRunning = false`, not `true` as the claim asserts. -/
theorem c1_counterexample :
    reconcile { currentState := SessionType.work, timeLeft := 5, isRunning := true,
                completedSessions := 3 } 5 cfgA 10 =
      some { currentState := SessionType.longBreak, timeLeft := 900, isRunning := false,
             completedSessions := 4, completedWhileAway := 1,
             savedSessions := [(SessionType.work, 1500)] }
    ∧ (reconcile { currentState := SessionType.work, timeLeft := 5, isRunning := true,
                   completedSessions := 3 } 5 cfgA 10).map ReconcileResult.isRunning
        ≠ some true := by
  constructor <;> decide

/-- Claim C1 (corrected): for a running snapshot under positive durations,
when the elapsed time lands exactly on a phase boundary — the total time
handed to the simulation equals the sum of the completed phases' durations,
so the overflow is consumed exactly to 0 — the result is the very start of
the next phase (`secondsRemaining` equal to that phase's full duration)
with `isRunning = false`: the timer is stopped at the start of the new
phase, not already counting down. -/
theorem c1_exact_boundary (cfg : PomodoroSettings) (st : TimerState) (elapsed : Int)
    (fuel : Nat) (res : ReconcileResult) (hrun : st.isRunning = true)
    (hw : 1 ≤ cfg.workDuration) (hs : 1 ≤ cfg.shortBreakDuration)
    (hl : 1 ≤ cfg.longBreakDuration) (h0 : 0 < elapsed) (hge : st.timeLeft ≤ elapsed)
    (hres : reconcile st elapsed cfg fuel = some res)
    (hexact : elapsed + (getCurrentDurationForState st.currentState cfg - st.timeLeft)
        = (res.savedSessions.map Prod.snd).sum) :
    res.timeLeft = getCurrentDurationForState res.currentState cfg
      ∧ res.isRunning = false := by
  rw [reconcile_simulate cfg st elapsed fuel hrun h0 hge] at hres
  have hdur := dur_pos cfg hw hs hl st.currentState
  have hcons := simulateLoop_conservation cfg fuel _ st.currentState st.completedSessions 0 []
    res (by omega) hres
  simp only [List.map_nil, List.sum_nil, zero_add] at hcons
  have ht : res.timeLeft = getCurrentDurationForState res.currentState cfg := by omega
  exact ⟨ht, (simulateLoop_boundaryFlag cfg fuel _ _ _ _ _ res hres).mpr ht⟩

/-- Witness for the corrected C1 at the boundary input of the
counterexample. -/
theorem c1_exact_boundary_witness :
    ({ currentState := SessionType.longBreak, timeLeft := 900, isRunning := false,
       completedSessions := 4, completedWhileAway := 1,
       savedSessions := [(SessionType.work, 1500)] } : ReconcileResult).timeLeft
      = getCurrentDurationForState
          ({ currentState := SessionType.longBreak, timeLeft := 900, isRunning := false,
             completedSessions := 4, completedWhileAway := 1,
             savedSessions := [(SessionType.work, 1500)] } : ReconcileResult).currentState cfgA
    ∧ ({ currentState := SessionType.longBreak, timeLeft := 900, isRunning := false,
         completedSessions := 4, completedWhileAway := 1,
         savedSessions := [(SessionType.work, 1500)] } : ReconcileResult).isRunning = false :=
  c1_exact_boundary cfgA
    { currentState := SessionType.work, timeLeft := 5, isRunning := true,
      completedSessions := 3 } 5 10
    { currentState := SessionType.longBreak, timeLeft := 900, isRunning := false,
      completedSessions := 4, completedWhileAway := 1,
      savedSessions := [(SessionType.work, 1500)] }
    rfl (by decide) (by decide) (by decide) (by decide) (by decide) (by decide) (by decide)

/-- Counterexample to C3 as stated: at the spec's scenario input the code
reports 4 sessions completed while away, not 3 — the initial work phase,
the long break, the second work phase and the short break all count. -/
theorem c3_counterexample :
    (reconcile { currentState := SessionType.work, timeLeft := 5, isRunning := true,
                 completedSessions := 3 } 3005 cfgA 10).map ReconcileResult.completedWhileAway
      ≠ some 3 := by
  decide

/-- Claim C3 (corrected): for config {work = 1500, shortBreak = 300,
longBreak = 900, sessionsUntilLongBreak = 4}, snapshot {phase = Work,
secondsRemaining = 5, isRunning = true, completedWorkSessions = 3} and
elapsed = 3005, the result is phase = Work, secondsRemaining = 1200,
completedWorkSessions = 5 and sessionsCompletedWhileAway = 4 (the claim
said 3); the completed phases are Work, LongBreak, Work, ShortBreak. -/
theorem c3_scenario :
    reconcile { currentState := SessionType.work, timeLeft := 5, isRunning := true,
                completedSessions := 3 } 3005 cfgA 10 =
      some { currentState := SessionType.work, timeLeft := 1200, isRunning := true,
             completedSessions := 5, completedWhileAway := 4,
             savedSessions := [(SessionType.work, 1500), (SessionType.longBreak, 900),
                               (SessionType.work, 1500), (SessionType.shortBreak, 300)] } := by
  decide

/-- Claim C9 (confirmed): whenever a running snapshot triggers the catch-up
simulation, the reported `sessionsCompletedWhileAway` equals the number of
phases the simulation completed in full — the length of the list of
`saveSession` records, which receives one entry per completed phase
regardless of whether it is a work phase or a break. -/
theorem c9_away_counts_all_phases (cfg : PomodoroSettings) (st : TimerState) (elapsed : Int)
    (fuel : Nat) (res : ReconcileResult) (hrun : st.isRunning = true) (h0 : 0 < elapsed)
    (hge : st.timeLeft ≤ elapsed) (hres : reconcile st elapsed cfg fuel = some res) :
    res.completedWhileAway = res.savedSessions.length := by
  rw [reconcile_simulate cfg st elapsed fuel hrun h0 hge] at hres
  have h := simulateLoop_away cfg fuel _ _ _ _ _ res hres
  simpa using h

/-- Witness for C9 at the spec's long-absence scenario: 4 completed phases,
4 counted. -/
theorem c9_away_counts_all_phases_witness :
    ({ currentState := SessionType.work, timeLeft := 1200, isRunning := true,
       completedSessions := 5, completedWhileAway := 4,
       savedSessions := [(SessionType.work, 1500), (SessionType.longBreak, 900),
                         (SessionType.work, 1500), (SessionType.shortBreak, 300)] }
      : ReconcileResult).completedWhileAway =
    ({ currentState := SessionType.work, timeLeft := 1200, isRunning := true,
       completedSessions := 5, completedWhileAway := 4,
       savedSessions := [(SessionType.work, 1500), (SessionType.longBreak, 900),
                         (SessionType.work, 1500), (SessionType.shortBreak, 300)] }
      : ReconcileResult).savedSessions.length :=
  c9_away_counts_all_phases cfgA
    { currentState := SessionType.work, timeLeft := 5, isRunning := true,
      completedSessions := 3 } 3005 10
    { currentState := SessionType.work, timeLeft := 1200, isRunning := true,
      completedSessions := 5, completedWhileAway := 4,
      savedSessions := [(SessionType.work, 1500), (SessionType.longBreak, 900),
                        (SessionType.work, 1500), (SessionType.shortBreak, 300)] }
    rfl (by decide) (by decide) (by decide)

/-- Claim C8 (confirmed): conservation of elapsed time.  For a running
snapshot that triggers the catch-up simulation under positive durations,
the snapshot's remaining seconds, plus the durations of the phases that
elapsed in full while away (every completed phase after the snapshot's own,
whose own contribution is exactly those remaining seconds), plus the part
of the final phase already consumed, reconstruct the elapsed time
exactly. -/
theorem c8_conservation (cfg : PomodoroSettings) (st : TimerState) (elapsed : Int)
    (fuel : Nat) (res : ReconcileResult) (hrun : st.isRunning = true)
    (hw : 1 ≤ cfg.workDuration) (hs : 1 ≤ cfg.shortBreakDuration)
    (hl : 1 ≤ cfg.longBreakDuration) (h0 : 0 < elapsed) (hge : st.timeLeft ≤ elapsed)
    (hres : reconcile st elapsed cfg fuel = some res) :
    st.timeLeft + ((res.savedSessions.map Prod.snd).tail).sum
        + (getCurrentDurationForState res.currentState cfg - res.timeLeft) = elapsed := by
  rw [reconcile_simulate cfg st elapsed fuel hrun h0 hge] at hres
  have hdur := dur_pos cfg hw hs hl st.currentState
  obtain ⟨t, ht⟩ := simulateLoop_first_completed cfg fuel _ st.currentState
    st.completedSessions 0 res (by omega) (by omega) hres
  have hcons := simulateLoop_conservation cfg fuel _ st.currentState st.completedSessions 0 []
    res (by omega) hres
  rw [ht] at hcons ⊢
  simp only [List.map_cons, List.sum_cons, List.map_nil, List.sum_nil, zero_add,
    List.tail_cons] at hcons ⊢
  omega

/-- Witness for C8 at the spec's long-absence scenario:
5 + (900 + 1500 + 300) + (1500 - 1200) = 3005. -/
theorem c8_conservation_witness :
    ({ currentState := SessionType.work, timeLeft := 5, isRunning := true,
       completedSessions := 3 } : TimerState).timeLeft
      + ((({ currentState := SessionType.work, timeLeft := 1200, isRunning := true,
             completedSessions := 5, completedWhileAway := 4,
             savedSessions := [(SessionType.work, 1500), (SessionType.longBreak, 900),
                               (SessionType.work, 1500), (SessionType.shortBreak, 300)] }
          : ReconcileResult).savedSessions.map Prod.snd).tail).sum
      + (getCurrentDurationForState
          ({ currentState := SessionType.work, timeLeft := 1200, isRunning := true,
             completedSessions := 5, completedWhileAway := 4,
             savedSessions := [(SessionType.work, 1500), (SessionType.longBreak, 900),
                               (SessionType.work, 1500), (SessionType.shortBreak, 300)] }
            : ReconcileResult).currentState cfgA
        - ({ currentState := SessionType.work, timeLeft := 1200, isRunning := true,
             completedSessions := 5, completedWhileAway := 4,
             savedSessions := [(SessionType.work, 1500), (SessionType.longBreak, 900),
                               (SessionType.work, 1500), (SessionType.shortBreak, 300)] }
            : ReconcileResult).timeLeft) = 3005 :=
  c8_conservation cfgA
    { currentState := SessionType.work, timeLeft := 5, isRunning := true,
      completedSessions := 3 } 3005 10
    { currentState := SessionType.work, timeLeft := 1200, isRunning := true,
      completedSessions := 5, completedWhileAway := 4,
      savedSessions := [(SessionType.work, 1500), (SessionType.longBreak, 900),
                        (SessionType.work, 1500), (SessionType.shortBreak, 300)] }
    rfl (by decide) (by decide) (by decide) (by decide) (by decide) (by decide)

/-- Claim C4 (confirmed): phase transitions.  In both the live
`nextSession` handler and each step of the catch-up loop, a completed work
phase is followed by a long break exactly when the post-increment session
count is divisible by `sessionsUntilLongBreak` (otherwise a short break),
a completed break of either kind is always followed by work, and with
`sessionsUntilLongBreak = 4` the 1st-3rd completed work phases are followed
by a short break and the 4th by a long break. -/
theorem c4_phase_transition :
    (∀ (settings : PomodoroSettings) (st : TimerState),
        st.currentState = SessionType.work →
      (nextSession st settings).currentState =
        (if (st.completedSessions + 1) % settings.sessionsUntilLongBreak = 0 then
          SessionType.longBreak else SessionType.shortBreak))
    ∧ (∀ (settings : PomodoroSettings) (st : TimerState),
        st.currentState ≠ SessionType.work →
      (nextSession st settings).currentState = SessionType.work)
    ∧ (∀ (cs : PomodoroSettings) (fuel : Nat) (rem : Int) (ss aw : Nat)
        (sv : List (SessionType × Int)), 0 < rem → cs.workDuration ≤ rem →
      simulateLoop cs (fuel + 1) rem SessionType.work ss aw sv =
        simulateLoop cs fuel (rem - cs.workDuration)
          (if (ss + 1) % cs.sessionsUntilLongBreak = 0 then SessionType.longBreak
            else SessionType.shortBreak)
          (ss + 1) (aw + 1) (sv ++ [(SessionType.work, cs.workDuration)]))
    ∧ (∀ (cs : PomodoroSettings) (fuel : Nat) (rem : Int) (ss aw : Nat)
        (sv : List (SessionType × Int)), 0 < rem → cs.shortBreakDuration ≤ rem →
      simulateLoop cs (fuel + 1) rem SessionType.shortBreak ss aw sv =
        simulateLoop cs fuel (rem - cs.shortBreakDuration) SessionType.work ss (aw + 1)
          (sv ++ [(SessionType.shortBreak, cs.shortBreakDuration)]))
    ∧ (∀ (cs : PomodoroSettings) (fuel : Nat) (rem : Int) (ss aw : Nat)
        (sv : List (SessionType × Int)), 0 < rem → cs.longBreakDuration ≤ rem →
      simulateLoop cs (fuel + 1) rem SessionType.longBreak ss aw sv =
        simulateLoop cs fuel (rem - cs.longBreakDuration) SessionType.work ss (aw + 1)
          (sv ++ [(SessionType.longBreak, cs.longBreakDuration)]))
    ∧ (∀ (settings : PomodoroSettings) (st : TimerState),
        settings.sessionsUntilLongBreak = 4 → st.currentState = SessionType.work →
      ((st.completedSessions = 0 ∨ st.completedSessions = 1 ∨ st.completedSessions = 2) →
        (nextSession st settings).currentState = SessionType.shortBreak)
      ∧ (st.completedSessions = 3 →
        (nextSession st settings).currentState = SessionType.longBreak)) := by
  have hwork : ∀ (settings : PomodoroSettings) (st : TimerState),
      st.currentState = SessionType.work →
      (nextSession st settings).currentState =
        (if (st.completedSessions + 1) % settings.sessionsUntilLongBreak = 0 then
          SessionType.longBreak else SessionType.shortBreak) := by
    intro settings st h
    simp only [nextSession, h]
    split_ifs <;> rfl
  refine ⟨hwork, ?_, ?_, ?_, ?_, ?_⟩
  · intro settings st h
    simp only [nextSession]
    rw [if_neg h]
    split_ifs <;> rfl
  · intro cs fuel rem ss aw sv h0 hd
    simp only [simulateLoop, getCurrentDurationForState]
    rw [if_pos h0, if_pos hd]
    simp
  · intro cs fuel rem ss aw sv h0 hd
    simp only [simulateLoop, getCurrentDurationForState]
    rw [if_pos h0, if_pos hd, if_neg (by simp)]
  · intro cs fuel rem ss aw sv h0 hd
    simp only [simulateLoop, getCurrentDurationForState]
    rw [if_pos h0, if_pos hd, if_neg (by simp)]
  · intro settings st h4 hw
    constructor
    · intro hc
      rw [hwork settings st hw, h4]
      rcases hc with h | h | h <;> simp [h]
    · intro hc
      rw [hwork settings st hw, h4, hc]
      decide

/-- Witness for C4: the 4th completed work session is followed by the long
break under the default cycle length of 4. -/
theorem c4_phase_transition_witness :
    (nextSession { currentState := SessionType.work, timeLeft := 0, isRunning := false,
                   completedSessions := 3 } cfgA).currentState = SessionType.longBreak := by
  have h := c4_phase_transition.1 cfgA
    { currentState := SessionType.work, timeLeft := 0, isRunning := false,
      completedSessions := 3 } rfl
  simpa using h

/-- Counterexample to C10 as stated: the snapshot {phase = work,
secondsRemaining = 0, isRunning = true} satisfies the claim's hypotheses
(0 ≤ secondsRemaining ≤ duration, positive durations), yet at elapsed = 0
the reconciler restores it verbatim, returning a running state with zero
seconds remaining. -/
theorem c10_counterexample :
    ((0 : Int) ≤ ({ currentState := SessionType.work, timeLeft := 0, isRunning := true,
                    completedSessions := 0 } : TimerState).timeLeft
      ∧ ({ currentState := SessionType.work, timeLeft := 0, isRunning := true,
           completedSessions := 0 } : TimerState).timeLeft
          ≤ getCurrentDurationForState SessionType.work cfgA
      ∧ 1 ≤ cfgA.workDuration ∧ 1 ≤ cfgA.shortBreakDuration ∧ 1 ≤ cfgA.longBreakDuration)
    ∧ (reconcile { currentState := SessionType.work, timeLeft := 0, isRunning := true,
                   completedSessions := 0 } 0 cfgA 10).map ReconcileResult.isRunning
        = some true
    ∧ (reconcile { currentState := SessionType.work, timeLeft := 0, isRunning := true,
                   completedSessions := 0 } 0 cfgA 10).map ReconcileResult.timeLeft
        = some 0 := by
  refine ⟨by decide, by decide, by decide⟩

/-- Claim C10 (corrected): the state invariant is preserved once it also
constrains the input's running flag.  For a snapshot satisfying
0 ≤ secondsRemaining ≤ duration(phase) and additionally
secondsRemaining > 0 whenever it is running, under positive durations the
reconciliation result again satisfies
0 ≤ secondsRemaining ≤ duration(phase), and a result left running always
has strictly positive seconds remaining. -/
theorem c10_invariant (cfg : PomodoroSettings) (st : TimerState) (elapsed : Int)
    (fuel : Nat) (res : ReconcileResult)
    (hw : 1 ≤ cfg.workDuration) (hs : 1 ≤ cfg.shortBreakDuration)
    (hl : 1 ≤ cfg.longBreakDuration) (hlow : 0 ≤ st.timeLeft)
    (hup : st.timeLeft ≤ getCurrentDurationForState st.currentState cfg)
    (hrp : st.isRunning = true → 0 < st.timeLeft)
    (hres : reconcile st elapsed cfg fuel = some res) :
    0 ≤ res.timeLeft ∧ res.timeLeft ≤ getCurrentDurationForState res.currentState cfg
      ∧ (res.isRunning = true → 0 < res.timeLeft) := by
  by_cases hrun : st.isRunning = true
  · by_cases h0 : 0 < elapsed
    · by_cases hlt : elapsed < st.timeLeft
      · rw [reconcile_resume cfg st elapsed fuel hrun h0 hlt] at hres
        obtain rfl := Option.some.inj hres
        refine ⟨?_, ?_, fun _ => ?_⟩ <;> (dsimp only; omega)
      · rw [reconcile_simulate cfg st elapsed fuel hrun h0 (by omega)] at hres
        exact simulateLoop_bounds cfg (by omega) (by omega) (by omega) fuel _ _ _ _ _ res hres
    · rw [reconcile_nonpos cfg st elapsed fuel h0] at hres
      obtain rfl := Option.some.inj hres
      exact ⟨hlow, hup, fun h => hrp (by simpa using h)⟩
  · rw [reconcile_not_running cfg st elapsed fuel (by simpa using hrun)] at hres
    obtain rfl := Option.some.inj hres
    exact ⟨hlow, hup, fun h => by cases h⟩

/-- Witness for the corrected C10: a valid running snapshot 30 s into a
work phase, reconciled after 30 s of absence, lands 30 s into the short
break and still satisfies the invariant. -/
theorem c10_invariant_witness :
    (0 : Int) ≤ ({ currentState := SessionType.shortBreak, timeLeft := 270, isRunning := true,
                   completedSessions := 1, completedWhileAway := 1,
                   savedSessions := [(SessionType.work, 1500)] } : ReconcileResult).timeLeft
    ∧ ({ currentState := SessionType.shortBreak, timeLeft := 270, isRunning := true,
         completedSessions := 1, completedWhileAway := 1,
         savedSessions := [(SessionType.work, 1500)] } : ReconcileResult).timeLeft
        ≤ getCurrentDurationForState
            ({ currentState := SessionType.shortBreak, timeLeft := 270, isRunning := true,
               completedSessions := 1, completedWhileAway := 1,
               savedSessions := [(SessionType.work, 1500)] } : ReconcileResult).currentState cfgA
    ∧ (({ currentState := SessionType.shortBreak, timeLeft := 270, isRunning := true,
          completedSessions := 1, completedWhileAway := 1,
          savedSessions := [(SessionType.work, 1500)] } : ReconcileResult).isRunning = true →
        (0 : Int) < ({ currentState := SessionType.shortBreak, timeLeft := 270,
                       isRunning := true, completedSessions := 1, completedWhileAway := 1,
                       savedSessions := [(SessionType.work, 1500)] }
          : ReconcileResult).timeLeft) :=
  c10_invariant cfgA
    { currentState := SessionType.work, timeLeft := 30, isRunning := true,
      completedSessions := 0 } 60 10
    { currentState := SessionType.shortBreak, timeLeft := 270, isRunning := true,
      completedSessions := 1, completedWhileAway := 1,
      savedSessions := [(SessionType.work, 1500)] }
    (by decide) (by decide) (by decide) (by decide) (by decide) (by decide) (by decide)

end Focus
